import Mathlib

/-!
Verification of the orchestration core of `Ollama_OpenAI_Assistant.py`:
a voice-assistant loop that listens for a wake word, captures a command,
dispatches it to two generation backends, and speaks both answers.

The Python source is shallowly embedded: each Python function becomes a
Lean function of the same name.  Reads of shared global state
(`stop_flag`, `tts_active`) and results of external calls (HTTP posts,
the speech recognizer, the synthesizer) are passed in explicitly as
parameters or per-iteration oracle inputs, so that every behaviour of
the code corresponds to a choice of those inputs.
-/

namespace OllamaAssistant

/-- Python `str.lower()`: character-wise lowercasing of the string. -/
def pyLower (s : String) : String := ⟨s.data.map Char.toLower⟩

/-- Python's `needle in hay` substring containment test on strings. -/
def pyIn (needle hay : String) : Bool :=
  hay.data.tails.any (fun t => needle.data.isPrefixOf t)

/-- Exceptions that the embedded code can raise or propagate. -/
inductive PyErr
  | requestException (msg : String)
  | indexError
  | runtimeError (msg : String)
deriving DecidableEq, Repr

/-- Wake word for activation (source line 20). -/
def WAKE_WORD : String := "hello"

/-- The stop word tested by `"stop" in text.lower()` (lines 47 and 62). -/
def STOP_WORD : String := "stop"

/-- Test `"stop" in text.lower()` (lines 47 and 62). -/
def containsStop (text : String) : Bool := pyIn STOP_WORD (pyLower text)

/-- Test `WAKE_WORD in text.lower()` (line 51). -/
def containsWake (text : String) : Bool := pyIn WAKE_WORD (pyLower text)

/-- One iteration of `vosk_listen`'s frame loop (lines 37-44): the value
of `stop_flag.is_set()` observed at the loop head, followed by the
recognizer's verdict on the frame read from the queue: `some t` when
`rec.AcceptWaveform` finalizes an utterance with text `t`, `none` when
the waveform is not yet finalized. -/
structure VoskStep where
  stopSet : Bool
  recResult : Option String
deriving DecidableEq, Repr

/-- Outcome of `vosk_listen`: a nonempty recognized text (line 44),
`cancelled` when the loop exits through the stop flag and the function
returns `None`, or `starved` when the supplied trace is exhausted while
the loop is still blocked on `q.get()`. -/
inductive ListenOutcome
  | recognized (t : String)
  | cancelled
  | starved
deriving DecidableEq, Repr

/-- Function `vosk_listen` (lines 27-44), as a function of the trace of loop
iterations it experiences. -/
def vosk_listen : List VoskStep → ListenOutcome
  | [] => .starved
  | step :: rest =>
    if step.stopSet then .cancelled
    else
      match step.recResult with
      | some t => if t = "" then vosk_listen rest else .recognized t
      | none => vosk_listen rest

/-- One iteration of `listen_for_command`'s loop (lines 59-69): the
result of the inner `vosk_listen` call (`none` models a `None` return)
and the value of `tts_active.is_set()` observed on line 66. -/
abbrev CmdStep := Option String × Bool

/-- Function `listen_for_command` (lines 57-69).  The first argument is the state
of `stop_flag` at entry; within a call the flag only changes when this
very function sets it (line 63), since all writers run on this thread.
Returns the Python return value (`some` command text or `None`) together
with the state of `stop_flag` afterwards. -/
def listen_for_command : Bool → List CmdStep → Option String × Bool
  | stop0, [] => (none, stop0)
  | stop0, (heard, tts) :: rest =>
    if stop0 then (none, stop0)
    else
      match heard with
      | some t =>
        if t = "" then listen_for_command stop0 rest
        else if containsStop t then (none, true)
        else if tts then listen_for_command stop0 rest
        else (some t, stop0)
      | none => listen_for_command stop0 rest

/-- One line of the local backend's response body, as consumed by
`process_ollama_response` (lines 110-117): `empty` is a falsy line
(skipped by `if line:`); `obj r` is a parsed JSON object whose optional
`"response"` field holds `r` (read by `.get('response', '')`). -/
inductive JsonLine
  | empty
  | obj (response : Option String)
deriving DecidableEq, Repr

/-- Function `process_ollama_response` (lines 110-117): fold over the response
lines accumulating `full_response`. -/
def process_ollama_response (lines : List JsonLine) : String :=
  lines.foldl
    (fun acc l =>
      match l with
      | .empty => acc
      | .obj r => acc ++ r.getD "")
    ""

/-- Function `get_ollama_response` (lines 89-108).  The parameter is the outcome
of `requests.post` on line 104: the call is not wrapped in any
`try`/`except`, so a raised exception propagates unchanged. -/
def get_ollama_response (post : Except PyErr (List JsonLine)) : Except PyErr String :=
  match post with
  | .error e => .error e
  | .ok lines => .ok (process_ollama_response lines)

/-- The `"message"` object of a cloud-backend choice; `content` is its
optional `"content"` field. -/
structure ChatMessage where
  content : Option String
deriving DecidableEq, Repr

/-- One element of the cloud-backend `"choices"` array; `message` is its
optional `"message"` field. -/
structure OpenAIChoice where
  message : Option ChatMessage
deriving DecidableEq, Repr

/-- The cloud backend's HTTP response as read by
`process_openai_response` (lines 142-146): status code, raw body text,
and the optional `"choices"` array of the parsed JSON body. -/
structure OpenAIResponse where
  status_code : Nat
  text : String
  choices : Option (List OpenAIChoice)
deriving DecidableEq, Repr

/-- Function `process_openai_response` (lines 142-146).  On status 200 the code
runs `response.json().get("choices", [{}])[0].get("message", {})
.get("content", "No response content.")`; indexing `[0]` on an empty
`choices` array raises `IndexError`.  On any other status it returns
the string `"Error: <status> - <body>"`. -/
def process_openai_response (r : OpenAIResponse) : Except PyErr String :=
  if r.status_code = 200 then
    match (r.choices.getD [⟨none⟩]).head? with
    | none => .error .indexError
    | some c =>
      .ok (((c.message.getD ⟨none⟩).content).getD "No response content.")
  else
    .ok ("Error: " ++ toString r.status_code ++ " - " ++ r.text)

/-- Function `get_openai_response` (lines 119-140).  The parameter is the outcome
of `requests.post` on lines 133-135.  The `try` block covers both the
post and `process_openai_response`; only
`requests.exceptions.RequestException` is caught and converted to the
placeholder string (line 140). -/
def get_openai_response (post : Except PyErr OpenAIResponse) : Except PyErr String :=
  match post.bind process_openai_response with
  | .error (.requestException msg) => .ok ("OpenAI API Request Failed: " ++ msg)
  | r => r

/-- Observable actions of the control loop, in program order. -/
inductive Event
  | setStop
  | beginCapture
  | dispatchCmd (cmd : String)
  | obtainedLocal (t : String)
  | obtainedCloud (t : String)
  | speakText (t : String)
deriving DecidableEq, Repr

/-- The paired outcome of querying both backends for one command:
`ollama` is the local-backend text, `openai` the cloud-backend text. -/
structure DualResponse where
  ollama : String
  openai : String
deriving DecidableEq, Repr

/-- Function `respond_to_text` (lines 71-87).  The two parameters are the
outcomes of the two `requests.post` calls made by the submitted tasks.
`ollama_future.result()` (line 76) re-raises any exception of the local
call; `openai_future.result()` (line 77) likewise for the cloud call;
otherwise both responses are printed and then spoken, local first. -/
def respond_to_text (ollamaPost : Except PyErr (List JsonLine))
    (openaiPost : Except PyErr OpenAIResponse) :
    Except PyErr (DualResponse × List Event) :=
  match get_ollama_response ollamaPost with
  | .error e => .error e
  | .ok o =>
    match get_openai_response openaiPost with
    | .error e => .error e
    | .ok a =>
      .ok (⟨o, a⟩,
        [.obtainedLocal o, .obtainedCloud a, .speakText o, .speakText a])

/-- Function `speak` (lines 155-165).  The first argument is `tts_active` at
entry (overwritten by `tts_active.set()` on line 156); the second is
the outcome of the synthesis steps (lines 158-163), `none` on success.
Returns the propagated exception, if any, together with the state of
`tts_active` when the call exits: `tts_active.clear()` on line 165 runs
only on the normal path, so an exception leaves the flag set. -/
def speak (tts0 : Bool) (synth : Option PyErr) : Option PyErr × Bool :=
  match synth with
  | none => (none, false)
  | some e => (some e, true)

/-- Oracle inputs consumed by one iteration of
`continuous_chat_with_vosk`'s loop (lines 170-173): the result of
`vosk_listen` and, should a wake word start a command capture followed
by a dispatch, the inputs of the nested calls. -/
structure LoopInput where
  heard : Option String
  cmdTrace : List CmdStep
  ollamaPost : Except PyErr (List JsonLine)
  openaiPost : Except PyErr OpenAIResponse

/-- Function `handle_recognized_text` (lines 46-55), given the state of
`stop_flag` at entry and the oracle inputs of the nested calls.
Returns the emitted events, the uncaught exception if the dispatch
raised one, and the state of `stop_flag` afterwards. -/
def handle_recognized_text (text : String) (stop0 : Bool)
    (cmdTrace : List CmdStep) (ollamaPost : Except PyErr (List JsonLine))
    (openaiPost : Except PyErr OpenAIResponse) :
    List Event × Option PyErr × Bool :=
  if containsStop text then ([.setStop], none, true)
  else if containsWake text then
    match listen_for_command stop0 cmdTrace with
    | (some c, stop1) =>
      if c = "" then ([.beginCapture], none, stop1)
      else
        match respond_to_text ollamaPost openaiPost with
        | .ok (_, evs) => (.beginCapture :: .dispatchCmd c :: evs, none, stop1)
        | .error e => ([.beginCapture, .dispatchCmd c], some e, stop1)
    | (none, stop1) => ([.beginCapture], none, stop1)
  else ([], none, stop0)

/-- Function `continuous_chat_with_vosk` (lines 167-173): the top-level loop,
checking `stop_flag` each iteration, listening, and handing nonempty
recognized text to `handle_recognized_text`.  An exception raised by a
dispatch propagates and aborts the loop (and the process). -/
def continuous_chat_with_vosk : Bool → List LoopInput → List Event × Option PyErr × Bool
  | stop0, [] => ([], none, stop0)
  | stop0, inp :: rest =>
    if stop0 then ([], none, stop0)
    else
      match inp.heard with
      | none => continuous_chat_with_vosk stop0 rest
      | some t =>
        if t = "" then continuous_chat_with_vosk stop0 rest
        else
          match handle_recognized_text t stop0 inp.cmdTrace inp.ollamaPost inp.openaiPost with
          | (evs, some e, stop1) => (evs, some e, stop1)
          | (evs, none, stop1) =>
            let r := continuous_chat_with_vosk stop1 rest
            (evs ++ r.1, r.2.1, r.2.2)

/-- Spec-side reading of one local-backend line ("each line's `response`
text fragment; empty lines and lines without a `response` field
contribute the empty string"). -/
def ollamaFragment : JsonLine → String
  | .empty => ""
  | .obj r => r.getD ""

/-- Spec-side answer extraction: the in-order concatenation of the
per-line fragments. -/
def ollamaConcatSpec (lines : List JsonLine) : String :=
  (lines.map ollamaFragment).foldr (· ++ ·) ""

/-- Speech output events. -/
def isSpeakEvent : Event → Bool
  | .speakText _ => true
  | _ => false

/-- Backend-result join events. -/
def isObtainedEvent : Event → Bool
  | .obtainedLocal _ => true
  | .obtainedCloud _ => true
  | _ => false

/-- Backend dispatch events. -/
def isDispatchEvent : Event → Bool
  | .dispatchCmd _ => true
  | _ => false

/-- Whether a dispatch call returned normally at all — `false` when an
exception escaped `respond_to_text`. -/
def dispatchSettled : Except PyErr (DualResponse × List Event) → Bool
  | .ok _ => true
  | .error _ => false

/-! ### Helper lemmas -/

theorem pyIn_eq_true_iff (n h : String) : pyIn n h = true ↔ n.data <:+: h.data := by
  unfold pyIn
  rw [List.any_eq_true]
  constructor
  · rintro ⟨t, ht, hp⟩
    rw [List.mem_tails t h.data] at ht
    rw [List.isPrefixOf_iff_prefix] at hp
    exact List.infix_iff_prefix_suffix.mpr ⟨t, hp, ht⟩
  · intro hinf
    obtain ⟨t, hp, ht⟩ := List.infix_iff_prefix_suffix.mp hinf
    exact ⟨t, (List.mem_tails _ _).mpr ht, List.isPrefixOf_iff_prefix.mpr hp⟩

theorem pyLower_data (s : String) : (pyLower s).data = s.data.map Char.toLower := rfl

/-- A word occurring anywhere in the utterance, in any letter case, is
found by the `word in text.lower()` test. -/
theorem pyIn_lower_append (w pre mid post : String) (hm : pyLower mid = w) :
    pyIn w (pyLower (pre ++ mid ++ post)) = true := by
  rw [pyIn_eq_true_iff]
  have hd : (pyLower (pre ++ mid ++ post)).data =
      (pyLower pre).data ++ w.data ++ (pyLower post).data := by
    simp [pyLower_data, String.data_append, ← hm]
  rw [hd]
  exact List.infix_append _ _ _

theorem containsStop_ne_empty (t : String) (h : containsStop t = true) : t ≠ "" := by
  intro he
  subst he
  simp [containsStop, pyLower, pyIn, STOP_WORD] at h

/-- Calling `listen_for_command` with the stop flag already set returns
`None` at once and leaves the flag set. -/
theorem listen_for_command_stopped (tr : List CmdStep) :
    listen_for_command true tr = (none, true) := by
  cases tr with
  | nil => rfl
  | cons s rest =>
    obtain ⟨heard, tts⟩ := s
    simp [listen_for_command]

/-- Any command returned by `listen_for_command` was heard at a step
where `tts_active` was clear, is nonempty, does not contain the stop
word, and leaves the stop flag unchanged. -/
theorem listen_for_command_returns (stop0 : Bool) (tr : List CmdStep)
    (c : String) (s1 : Bool) (h : listen_for_command stop0 tr = (some c, s1)) :
    (some c, false) ∈ tr ∧ c ≠ "" ∧ containsStop c = false ∧ s1 = stop0 := by
  induction tr with
  | nil => simp [listen_for_command] at h
  | cons step rest ih =>
    obtain ⟨heard, tts⟩ := step
    by_cases h0 : stop0
    · subst h0
      rw [listen_for_command_stopped] at h
      simp at h
    · simp only [Bool.not_eq_true] at h0
      subst h0
      simp only [listen_for_command, if_false, Bool.false_eq_true] at h
      cases heard with
      | none =>
        obtain ⟨hm, h2, h3, h4⟩ := ih h
        exact ⟨List.mem_cons_of_mem _ hm, h2, h3, h4⟩
      | some t =>
        by_cases ht : t = ""
        · subst ht
          simp at h
          obtain ⟨hm, h2, h3, h4⟩ := ih h
          exact ⟨List.mem_cons_of_mem _ hm, h2, h3, h4⟩
        · by_cases hs : containsStop t
          · simp [ht, hs] at h
          · by_cases htts : tts
            · subst htts
              simp [ht, hs] at h
              obtain ⟨hm, h2, h3, h4⟩ := ih h
              exact ⟨List.mem_cons_of_mem _ hm, h2, h3, h4⟩
            · simp only [Bool.not_eq_true] at htts
              subst htts
              simp [ht, hs] at h
              obtain ⟨hc, hst⟩ := h
              subst hc
              exact ⟨List.mem_cons_self _ _, ht, by simpa using hs, hst⟩

/-- The main loop entered with the stop flag set performs no action. -/
theorem continuous_chat_stopped (tr : List LoopInput) :
    continuous_chat_with_vosk true tr = ([], none, true) := by
  cases tr with
  | nil => rfl
  | cons inp rest => simp [continuous_chat_with_vosk]

/-- Dispatcher `respond_to_text` never emits a dispatch event of its own. -/
theorem respond_to_text_no_dispatch (oPost : Except PyErr (List JsonLine))
    (aPost : Except PyErr OpenAIResponse) (d : DualResponse) (evs : List Event)
    (h : respond_to_text oPost aPost = .ok (d, evs)) (c : String) :
    Event.dispatchCmd c ∉ evs := by
  unfold respond_to_text at h
  cases ho : get_ollama_response oPost with
  | error e => rw [ho] at h; exact absurd h (by simp)
  | ok o =>
    rw [ho] at h
    cases ha : get_openai_response aPost with
    | error e => rw [ha] at h; exact absurd h (by simp)
    | ok a =>
      rw [ha] at h
      simp only [Except.ok.injEq, Prod.mk.injEq] at h
      obtain ⟨-, hevs⟩ := h
      subst hevs
      simp

theorem process_ollama_response_aux (lines : List JsonLine) :
    ∀ acc : String,
      lines.foldl
        (fun acc l =>
          match l with
          | .empty => acc
          | .obj r => acc ++ r.getD "")
        acc = acc ++ ollamaConcatSpec lines := by
  induction lines with
  | nil => intro acc; simp [ollamaConcatSpec]
  | cons l ls ih =>
    intro acc
    have hstep :
        (match l with
          | JsonLine.empty => acc
          | JsonLine.obj r => acc ++ r.getD "") = acc ++ ollamaFragment l := by
      cases l with
      | empty => simp [ollamaFragment]
      | obj r => simp [ollamaFragment]
    simp only [List.foldl_cons, hstep, ih]
    simp only [ollamaConcatSpec, List.map_cons, List.foldr_cons, String.append_assoc]

/-! ### Claim theorems -/

/-- Claim C1, counterexample: when the local-backend post raises (its
call sits in no `try` block), the dispatcher propagates the exception
instead of returning a `DualResponse`, and the cloud side's successful
result is discarded — refuting the claim that every backend failure is
captured as a placeholder value. -/
theorem respond_local_failure_propagates_cex :
    respond_to_text (Except.error (PyErr.requestException "connection refused"))
        (Except.ok (OpenAIResponse.mk 200 ""
          (some [OpenAIChoice.mk (some (ChatMessage.mk (some "Hi")))]))) =
      Except.error (PyErr.requestException "connection refused")
  ∧ dispatchSettled (respond_to_text
        (Except.error (PyErr.requestException "connection refused"))
        (Except.ok (OpenAIResponse.mk 200 ""
          (some [OpenAIChoice.mk (some (ChatMessage.mk (some "Hi")))])))) = false :=
  ⟨rfl, rfl⟩

/-- Claim C1, amended: when the local-backend call succeeds, the
dispatcher returns both fields populated, and a failing cloud request
is captured as the `"OpenAI API Request Failed: ..."` placeholder string
rather than propagating; a local-backend failure, however, propagates
out of `respond_to_text` unchanged. -/
theorem respond_captures_cloud_failure (lines : List JsonLine) (m : String)
    (e : PyErr) (aPost : Except PyErr OpenAIResponse) :
    respond_to_text (.ok lines) (.error (.requestException m)) =
      .ok (⟨process_ollama_response lines, "OpenAI API Request Failed: " ++ m⟩,
        [.obtainedLocal (process_ollama_response lines),
         .obtainedCloud ("OpenAI API Request Failed: " ++ m),
         .speakText (process_ollama_response lines),
         .speakText ("OpenAI API Request Failed: " ++ m)])
  ∧ respond_to_text (.error e) aPost = .error e :=
  ⟨rfl, rfl⟩

/-- Claim C2, counterexample: `speak` has no `try`/`finally`, so when
synthesis raises, `tts_active.clear()` is never reached and the flag is
left set on the abnormal exit path — refuting the claim that the flag
is false immediately after every `speak` call. -/
theorem speak_flag_left_set_cex :
    speak false (some (PyErr.runtimeError "synthesis failure")) =
      (some (PyErr.runtimeError "synthesis failure"), true)
  ∧ (speak false (some (PyErr.runtimeError "synthesis failure"))).2 ≠ false :=
  ⟨rfl, by simp [speak]⟩

/-- Claim C2, amended: `speak` sets `tts_active` for the call's
duration and clears it on the normal return path, so the flag is false
after a call whose synthesis succeeds; when synthesis raises, the
exception propagates and the flag is left set. -/
theorem speak_clears_flag_on_normal_exit (tts0 : Bool) (e : PyErr) :
    speak tts0 none = (none, false) ∧ speak tts0 (some e) = (some e, true) :=
  ⟨rfl, rfl⟩

/-- Claim C7: the extracted local-backend answer equals the in-order
concatenation of each JSON line's `response` fragment, empty lines and
lines without a `response` field contributing the empty string; in
particular lines `{"response":"Four"}` then `{"response":"."}` yield
`"Four."`. -/
theorem ollama_answer_is_fragment_concat (lines : List JsonLine) :
    process_ollama_response lines = ollamaConcatSpec lines
  ∧ process_ollama_response
      [.obj (some "Four"), .empty, .obj none, .obj (some ".")] = "Four." := by
  constructor
  · have h := process_ollama_response_aux lines ""
    unfold process_ollama_response
    rw [h, String.empty_append]
  · rfl

/-- Claim C8: a cloud-backend response with status `S ≠ 200` and body
`B` yields exactly the string `"Error: S - B"`, and that string is what
the control loop passes to `speak` (it is the cloud field of the
`DualResponse` and the final `speakText` event); on status 200 the
result is `choices[0].message.content`. -/
theorem openai_error_is_surfaced (r : OpenAIResponse) (hne : r.status_code ≠ 200)
    (lines : List JsonLine)
    (r2 : OpenAIResponse) (h200 : r2.status_code = 200)
    (c : OpenAIChoice) (cs : List OpenAIChoice) (hch : r2.choices = some (c :: cs))
    (m : ChatMessage) (hm : c.message = some m)
    (s : String) (hc : m.content = some s) :
    process_openai_response r =
      .ok ("Error: " ++ toString r.status_code ++ " - " ++ r.text)
  ∧ respond_to_text (.ok lines) (.ok r) =
      .ok (⟨process_ollama_response lines,
            "Error: " ++ toString r.status_code ++ " - " ++ r.text⟩,
        [.obtainedLocal (process_ollama_response lines),
         .obtainedCloud ("Error: " ++ toString r.status_code ++ " - " ++ r.text),
         .speakText (process_ollama_response lines),
         .speakText ("Error: " ++ toString r.status_code ++ " - " ++ r.text)])
  ∧ process_openai_response r2 = .ok s := by
  have herr : process_openai_response r =
      .ok ("Error: " ++ toString r.status_code ++ " - " ++ r.text) := by
    unfold process_openai_response
    rw [if_neg hne]
  refine ⟨herr, ?_, ?_⟩
  · unfold respond_to_text get_ollama_response get_openai_response
    rw [show ((Except.ok r).bind process_openai_response : Except PyErr String) =
      process_openai_response r from rfl, herr]
  · unfold process_openai_response
    rw [if_pos h200, hch]
    simp [hm, hc]

/-- Witness for C8 at the spec's scenario: status 500 with body
`"server error"` produces the spoken string `"Error: 500 - server
error"`, and a well-formed 200 response produces its first choice's
message content. -/
theorem openai_error_is_surfaced_witness :
    process_openai_response (OpenAIResponse.mk 500 "server error" none) =
      .ok ("Error: " ++ toString 500 ++ " - " ++ "server error")
  ∧ respond_to_text (.ok [JsonLine.obj (some "Four")])
      (.ok (OpenAIResponse.mk 500 "server error" none)) =
      .ok (⟨process_ollama_response [JsonLine.obj (some "Four")],
            "Error: " ++ toString 500 ++ " - " ++ "server error"⟩,
        [.obtainedLocal (process_ollama_response [JsonLine.obj (some "Four")]),
         .obtainedCloud ("Error: " ++ toString 500 ++ " - " ++ "server error"),
         .speakText (process_ollama_response [JsonLine.obj (some "Four")]),
         .speakText ("Error: " ++ toString 500 ++ " - " ++ "server error")])
  ∧ process_openai_response
      (OpenAIResponse.mk 200 "ok"
        (some [OpenAIChoice.mk (some (ChatMessage.mk (some "Hi")))])) =
      .ok "Hi" :=
  openai_error_is_surfaced (OpenAIResponse.mk 500 "server error" none)
    (by decide) [JsonLine.obj (some "Four")]
    (OpenAIResponse.mk 200 "ok"
      (some [OpenAIChoice.mk (some (ChatMessage.mk (some "Hi")))]))
    rfl (OpenAIChoice.mk (some (ChatMessage.mk (some "Hi")))) [] rfl
    (ChatMessage.mk (some "Hi")) rfl "Hi" rfl

/-- Claim C3: processing an utterance containing the stop word
(case-insensitive substring) sets the stop flag; the main loop then
terminates within that iteration — a trace whose first utterance
contains the stop word produces only the `setStop` event — and once the
flag is set the loop starts no further listen/dispatch/speak cycle and
the flag is never reset. -/
theorem stop_word_halts_loop (t : String) (h : containsStop t = true)
    (stop0 : Bool) (ct : List CmdStep) (o : Except PyErr (List JsonLine))
    (a : Except PyErr OpenAIResponse) (inp : LoopInput) (hh : inp.heard = some t)
    (rest trace : List LoopInput) :
    handle_recognized_text t stop0 ct o a = ([.setStop], none, true)
  ∧ continuous_chat_with_vosk false (inp :: rest) = ([.setStop], none, true)
  ∧ continuous_chat_with_vosk true trace = ([], none, true) := by
  have hne : t ≠ "" := containsStop_ne_empty t h
  have hhandle : ∀ s1 ct1 o1 a1, handle_recognized_text t s1 ct1 o1 a1 =
      ([.setStop], none, true) := by
    intro s1 ct1 o1 a1
    simp [handle_recognized_text, h]
  refine ⟨hhandle stop0 ct o a, ?_, continuous_chat_stopped trace⟩
  simp [continuous_chat_with_vosk, hh, hne, hhandle, continuous_chat_stopped]

/-- Witness for C3 at the spec's scenario: the utterance `"please stop
now"` halts the loop in one iteration even when a wake-word utterance
follows it in the trace. -/
theorem stop_word_halts_loop_witness :
    handle_recognized_text "please stop now" false [] (.ok [])
      (.ok (OpenAIResponse.mk 200 "" none)) = ([.setStop], none, true)
  ∧ continuous_chat_with_vosk false
      (LoopInput.mk (some "please stop now") [] (.ok [])
          (.ok (OpenAIResponse.mk 200 "" none)) ::
        [LoopInput.mk (some "hello") [(some "ignored", false)] (.ok [])
          (.ok (OpenAIResponse.mk 200 "" none))]) = ([.setStop], none, true)
  ∧ continuous_chat_with_vosk true
      [LoopInput.mk (some "hello") [(some "ignored", false)] (.ok [])
        (.ok (OpenAIResponse.mk 200 "" none))] = ([], none, true) :=
  stop_word_halts_loop "please stop now" (by decide) false [] (.ok [])
    (.ok (OpenAIResponse.mk 200 "" none))
    (LoopInput.mk (some "please stop now") [] (.ok [])
      (.ok (OpenAIResponse.mk 200 "" none))) rfl
    [LoopInput.mk (some "hello") [(some "ignored", false)] (.ok [])
      (.ok (OpenAIResponse.mk 200 "" none))]
    [LoopInput.mk (some "hello") [(some "ignored", false)] (.ok [])
      (.ok (OpenAIResponse.mk 200 "" none))]

/-- Claim C4: wake-word and stop-word detection are case-insensitive
substring tests over the full utterance (any casing of the word at any
position is matched), stop-word detection takes priority when both
words are present, and an utterance containing the wake word but not
the stop word begins command capture (the `beginCapture` event that
marks the Idle to AwaitingCommand transition). -/
theorem wake_stop_detection
    (pre mid post : String) (hw : pyLower mid = WAKE_WORD)
    (pre2 mid2 post2 : String) (hs2 : pyLower mid2 = STOP_WORD)
    (u : String) (hus : containsStop u = true) (huw : containsWake u = true)
    (t : String) (htw : containsWake t = true) (hts : containsStop t = false)
    (stop0 : Bool) (ct : List CmdStep) (o : Except PyErr (List JsonLine))
    (a : Except PyErr OpenAIResponse) :
    containsWake (pre ++ mid ++ post) = true
  ∧ containsStop (pre2 ++ mid2 ++ post2) = true
  ∧ handle_recognized_text u stop0 ct o a = ([.setStop], none, true)
  ∧ (handle_recognized_text t stop0 ct o a).1.head? = some .beginCapture := by
  refine ⟨pyIn_lower_append _ _ _ _ hw, pyIn_lower_append _ _ _ _ hs2,
    by simp [handle_recognized_text, hus], ?_⟩
  unfold handle_recognized_text
  rw [if_neg (by simp [hts]), if_pos htw]
  split
  · split
    · rfl
    · split
      · rfl
      · rfl
  · rfl

/-- Witness for C4: `"HeLLo"` inside a sentence wakes the assistant,
`"StOp"` inside a sentence is detected, stop wins over wake in
`"hello stop"`, and `"oh hello there"` begins command capture. -/
theorem wake_stop_detection_witness :
    containsWake ("say " ++ "HeLLo" ++ " please") = true
  ∧ containsStop ("now " ++ "StOp" ++ " it") = true
  ∧ handle_recognized_text "hello stop" false [] (.ok [])
      (.ok (OpenAIResponse.mk 200 "" none)) = ([.setStop], none, true)
  ∧ (handle_recognized_text "oh hello there" false [] (.ok [])
      (.ok (OpenAIResponse.mk 200 "" none))).1.head? = some .beginCapture :=
  wake_stop_detection "say " "HeLLo" " please" (by decide)
    "now " "StOp" " it" (by decide)
    "hello stop" (by decide) (by decide)
    "oh hello there" (by decide) (by decide)
    false [] (.ok []) (.ok (OpenAIResponse.mk 200 "" none))

/-- Claim C5: during `AwaitingCommand`, a nonempty non-stop utterance
heard while `tts_active` is set is discarded and the loop re-listens
(the call behaves exactly as if that utterance had not occurred), and
any command actually returned was heard at a step where the flag was
clear — so an utterance heard during speech is never returned and hence
never dispatched. -/
theorem tts_active_utterance_discarded (t : String) (ht : t ≠ "")
    (hs : containsStop t = false) (rest tr : List CmdStep) (stop0 : Bool)
    (c : String) (s1 : Bool) (hr : listen_for_command stop0 tr = (some c, s1)) :
    listen_for_command false ((some t, true) :: rest) = listen_for_command false rest
  ∧ (some c, false) ∈ tr := by
  constructor
  · simp [listen_for_command, ht, hs]
  · exact (listen_for_command_returns stop0 tr c s1 hr).1

/-- Witness for C5: `"what time is it"` heard while the flag is set is
skipped; the command eventually returned comes from a flag-clear step. -/
theorem tts_active_utterance_discarded_witness :
    listen_for_command false ((some "what time is it", true) ::
        [(some "ok", false)]) = listen_for_command false [(some "ok", false)]
  ∧ ((some "ok" : Option String), false) ∈
      [((some "what time is it" : Option String), true), (some "ok", false)] :=
  tts_active_utterance_discarded "what time is it" (by decide) (by decide)
    [(some "ok", false)]
    [(some "what time is it", true), (some "ok", false)] false "ok" false
    (by decide)

/-- Claim C6: a successful dispatch produces its events in the fixed
order: both backend results are obtained (the two future joins) before
any speech output starts, and the two `speak` calls are local-backend
response first, cloud-backend response second. -/
theorem both_joined_before_speaking (oPost : Except PyErr (List JsonLine))
    (aPost : Except PyErr OpenAIResponse) (d : DualResponse) (evs : List Event)
    (h : respond_to_text oPost aPost = .ok (d, evs)) :
    evs = [.obtainedLocal d.ollama, .obtainedCloud d.openai,
           .speakText d.ollama, .speakText d.openai]
  ∧ (evs.take 2).all (fun e => isObtainedEvent e && !isSpeakEvent e) = true
  ∧ evs.drop 2 = [.speakText d.ollama, .speakText d.openai] := by
  unfold respond_to_text at h
  cases ho : get_ollama_response oPost with
  | error e => rw [ho] at h; exact absurd h (by simp)
  | ok o =>
    rw [ho] at h
    cases ha : get_openai_response aPost with
    | error e => rw [ha] at h; exact absurd h (by simp)
    | ok a =>
      rw [ha] at h
      simp only [Except.ok.injEq, Prod.mk.injEq] at h
      obtain ⟨hd, hevs⟩ := h
      subst hevs
      subst hd
      exact ⟨rfl, rfl, rfl⟩

/-- Witness for C6 at a concrete dispatch: local answer `"Four."`,
cloud answer `"Hi"`; joins precede speech and the speak order is local
then cloud. -/
theorem both_joined_before_speaking_witness :
    ([Event.obtainedLocal "Four.", Event.obtainedCloud "Hi",
      Event.speakText "Four.", Event.speakText "Hi"] =
      [Event.obtainedLocal (DualResponse.mk "Four." "Hi").ollama,
       Event.obtainedCloud (DualResponse.mk "Four." "Hi").openai,
       Event.speakText (DualResponse.mk "Four." "Hi").ollama,
       Event.speakText (DualResponse.mk "Four." "Hi").openai])
  ∧ (([Event.obtainedLocal "Four.", Event.obtainedCloud "Hi",
      Event.speakText "Four.", Event.speakText "Hi"].take 2).all
      (fun e => isObtainedEvent e && !isSpeakEvent e) = true)
  ∧ ([Event.obtainedLocal "Four.", Event.obtainedCloud "Hi",
      Event.speakText "Four.", Event.speakText "Hi"].drop 2 =
      [Event.speakText (DualResponse.mk "Four." "Hi").ollama,
       Event.speakText (DualResponse.mk "Four." "Hi").openai]) :=
  both_joined_before_speaking
    (.ok [JsonLine.obj (some "Four"), JsonLine.obj (some ".")])
    (.ok (OpenAIResponse.mk 200 ""
      (some [OpenAIChoice.mk (some (ChatMessage.mk (some "Hi")))])))
    (DualResponse.mk "Four." "Hi")
    [Event.obtainedLocal "Four.", Event.obtainedCloud "Hi",
     Event.speakText "Four.", Event.speakText "Hi"] rfl

/-- Claim C9: `vosk_listen` checks the stop flag before every queue
read; once the flag is observed set at a loop head — after any prefix
of frames that produced no nonempty utterance — the call returns the
cancelled outcome immediately, whatever frames may still follow. -/
theorem vosk_listen_cancels_on_stop (pre : List VoskStep)
    (hpre : ∀ p ∈ pre, p.stopSet = false ∧ p.recResult.getD "" = "")
    (s : VoskStep) (hs : s.stopSet = true) (rest : List VoskStep) :
    vosk_listen (pre ++ s :: rest) = .cancelled := by
  induction pre with
  | nil => simp [vosk_listen, hs]
  | cons p ps ih =>
    obtain ⟨hps, hpr⟩ := hpre p (List.mem_cons_self _ _)
    have hrest := fun q hq => hpre q (List.mem_cons_of_mem p hq)
    cases hp : p.recResult with
    | none => simp [vosk_listen, hps, hp, ih hrest]
    | some u =>
      have hu : u = "" := by simpa [hp] using hpr
      simp [vosk_listen, hps, hp, hu, ih hrest]

/-- Witness for C9: after two unfruitful frames the flag is observed
set and the call cancels, ignoring a frame still queued behind it. -/
theorem vosk_listen_cancels_on_stop_witness :
    vosk_listen ([VoskStep.mk false none, VoskStep.mk false (some "")] ++
      VoskStep.mk true (some "hello") :: [VoskStep.mk false (some "hi")]) =
      .cancelled :=
  vosk_listen_cancels_on_stop
    [VoskStep.mk false none, VoskStep.mk false (some "")] (by decide)
    (VoskStep.mk true (some "hello")) rfl [VoskStep.mk false (some "hi")]

/-- Claim C10: the backend dispatcher is invoked only with a nonempty
command: a `dispatchCmd` event from `handle_recognized_text` carries a
nonempty command string that the capture loop actually returned (with
the stop flag unchanged) — so when capture yields no command,
`respond_to_text` is never called. -/
theorem dispatch_requires_captured_command (t : String) (stop0 : Bool)
    (ct : List CmdStep) (o : Except PyErr (List JsonLine))
    (a : Except PyErr OpenAIResponse) (c : String)
    (hc : Event.dispatchCmd c ∈ (handle_recognized_text t stop0 ct o a).1) :
    c ≠ "" ∧ listen_for_command stop0 ct = (some c, stop0) := by
  unfold handle_recognized_text at hc
  split at hc
  · simp at hc
  · split at hc
    · split at hc
      · rename_i c2 stop1 heq
        split at hc
        · simp at hc
        · rename_i hce
          split at hc
          · rename_i d2 evs2 heq2
            simp only [List.mem_cons] at hc
            rcases hc with h1 | h2 | h3
            · exact absurd h1 (by simp)
            · have hcc : c = c2 := by simpa using h2
              subst hcc
              obtain ⟨-, -, -, hst⟩ :=
                listen_for_command_returns stop0 ct c stop1 heq
              refine ⟨hce, ?_⟩
              rw [heq, hst]
            · exact absurd h3 (respond_to_text_no_dispatch o a d2 evs2 heq2 c)
          · rename_i e2 heq2
            simp only [List.mem_cons, List.not_mem_nil, or_false] at hc
            rcases hc with h1 | h2
            · exact absurd h1 (by simp)
            · have hcc : c = c2 := by simpa using h2
              subst hcc
              obtain ⟨-, -, -, hst⟩ :=
                listen_for_command_returns stop0 ct c stop1 heq
              refine ⟨hce, ?_⟩
              rw [heq, hst]
      · simp at hc
    · simp at hc

/-- Witness for C10 at the spec's scenario 1: after the wake word, the
captured command `"what is two plus two"` is what gets dispatched, and
it is nonempty. -/
theorem dispatch_requires_captured_command_witness :
    ("what is two plus two" : String) ≠ ""
  ∧ listen_for_command false [(some "what is two plus two", false)] =
      (some "what is two plus two", false) :=
  dispatch_requires_captured_command "hello" false
    [(some "what is two plus two", false)]
    (.ok [JsonLine.obj (some "Four")])
    (.ok (OpenAIResponse.mk 200 ""
      (some [OpenAIChoice.mk (some (ChatMessage.mk (some "Hi")))])))
    "what is two plus two" (by decide)

end OllamaAssistant
